import Mathlib

/-!
Verification development for the segmentation-guided video blur pipeline.

The repository contains two near-duplicate pipeline implementations:
a class-based one (WebGPURenderer, file part_000) and a closure-based one
(webgpu-renderer.js).  Both are shallowly embedded below: GPU objects are
modelled by identifiers allocated from a per-state counter, the resource
cache is an association list keyed by the structural content of the string
cache keys built in the source (the string template is injective on its
components for the fixed resource names used by the pipeline, so a
structural key type is an exact model of the string keys), and the
externally observable collaborator calls (dispatches, blur invocations,
render passes, readbacks, segmenter calls) are recorded in an event list
returned alongside the resulting state.
-/

/-- A GPU texture as created by device.createTexture: identity, size,
format and usage flags. -/
structure Texture where
  id : Nat
  width : Nat
  height : Nat
  format : String
  usage : Nat
deriving Repr, DecidableEq

/-- A cached GPU resource: texture, buffer (with byte size) or pipeline. -/
inductive Res where
  | tex (t : Texture)
  | buf (id : Nat) (size : Nat)
  | pipe (id : Nat)
deriving Repr, DecidableEq

/-- The identifier of a cached resource. -/
def Res.rid : Res → Nat
  | .tex t => t.id
  | .buf i _ => i
  | .pipe i => i

/-- Structural model of the string cache keys of the source.
texKey mirrors the template key_WxH_format_usage of getOrCreateTexture,
bufKey mirrors readbackBufferSIZE, pipeKey mirrors renderPipeline_WxH.
For the fixed resource names used by the pipeline the string templates
are injective on these components, so equality of keys coincides. -/
inductive RKey where
  | texKey (name : String) (w h : Nat) (format : String) (usage : Nat)
  | bufKey (name : String) (size : Nat)
  | pipeKey (name : String) (w h : Nat)
deriving Repr, DecidableEq

/-- Association-list lookup for the resource cache (a JS object keyed by
strings; each key maps to at most one resource). -/
def lookupRes : List (RKey × Res) → RKey → Option Res
  | [], _ => none
  | (k, r) :: rest, key => if key = k then some r else lookupRes rest key

/-- Association-list update, replacing the binding in place like the JS
assignment cache[cacheKey] = resource. -/
def setRes : List (RKey × Res) → RKey → Res → List (RKey × Res)
  | [], k, r => [(k, r)]
  | (k0, r0) :: rest, k, r => if k = k0 then (k, r) :: rest else (k0, r0) :: setRes rest k r

/-- One color attachment of a render pass descriptor. -/
structure ColorAttachment where
  viewTexId : Nat
  clearR : Nat
  clearG : Nat
  clearB : Nat
  clearA : Nat
  loadOp : String
  storeOp : String
deriving Repr, DecidableEq

/-- One draw call recorded inside a render pass: vertex count, instance
count and whether an index buffer was used. -/
structure DrawCall where
  vertexCount : Nat
  instanceCount : Nat
  indexed : Bool
deriving Repr, DecidableEq

/-- Externally observable pipeline actions recorded while a frame runs. -/
inductive Event where
  | getInputBuffer (id : Nat)
  | createBindGroup (entries : List (Nat × Option Nat))
  | dispatchWorkgroups (x y : Nat)
  | submit
  | gpuInference
  | copyBufferToTexture (bufId texId : Nat)
  | copyTextureToBuffer (bufId : Nat)
  | mapAsyncRead (bufId : Nat)
  | cpuSegment (w h : Nat)
  | writeTexture (texId w h : Nat)
  | getCurrentTexture (id : Nat)
  | setInputDimensions (w h : Nat)
  | blur (encId srcId maskId dstId kernel : Nat)
  | renderPass (atts : List ColorAttachment) (draws : List DrawCall)
deriving Repr, DecidableEq

/-- True for the GPU-to-CPU readback map operation. -/
def Event.isMapAsyncRead : Event → Bool
  | .mapAsyncRead _ => true
  | _ => false

/-- True for the GPU segmenter inference call. -/
def Event.isGpuInference : Event → Bool
  | .gpuInference => true
  | _ => false

/-- True for the CPU segmenter call. -/
def Event.isCpuSegment : Event → Bool
  | .cpuSegment _ _ => true
  | _ => false

/-- True for a texture-to-buffer readback copy. -/
def Event.isCopyTextureToBuffer : Event → Bool
  | .copyTextureToBuffer _ => true
  | _ => false

/-- True for a blur engine invocation. -/
def Event.isBlur : Event → Bool
  | .blur _ _ _ _ _ => true
  | _ => false

/-- True for a blur engine resolution update. -/
def Event.isSetInputDimensions : Event → Bool
  | .setInputDimensions _ _ => true
  | _ => false

/-- Extracts a render pass from an event. -/
def Event.toPass : Event → Option (List ColorAttachment × List DrawCall)
  | .renderPass atts draws => some (atts, draws)
  | _ => none

/-- Extracts a compute dispatch from an event. -/
def Event.toDispatch : Event → Option (Nat × Nat)
  | .dispatchWorkgroups x y => some (x, y)
  | _ => none

/-- Extracts a bind group creation from an event. -/
def Event.toBindGroup : Event → Option (List (Nat × Option Nat))
  | .createBindGroup entries => some entries
  | _ => none

/-- Mutable pipeline state: fresh-identifier counter, the resource cache,
the identifiers on which destroy() has been called, the persistent mask
texture field of the class implementation, and the offscreen canvas size. -/
structure St where
  nextId : Nat
  cache : List (RKey × Res)
  destroyed : List Nat
  maskTex : Option Texture
  canvasW : Nat
  canvasH : Nat
deriving Repr, DecidableEq

/-- Incoming frame: display dimensions (0 models an unreported/undefined
dimension, which is falsy in JS), timestamp and duration. -/
structure VideoFrame where
  displayWidth : Nat
  displayHeight : Nat
  timestamp : Int
  duration : Option Int
deriving Repr, DecidableEq

/-- Outgoing frame constructed from the offscreen canvas. -/
structure OutFrame where
  width : Nat
  height : Nat
  timestamp : Int
  duration : Option Int
deriving Repr, DecidableEq

/-- GPUTextureUsage.COPY_SRC. -/
def COPY_SRC : Nat := 1

/-- GPUTextureUsage.COPY_DST. -/
def COPY_DST : Nat := 2

/-- GPUTextureUsage.TEXTURE_BINDING. -/
def TEXTURE_BINDING : Nat := 4

/-- GPUTextureUsage.STORAGE_BINDING. -/
def STORAGE_BINDING : Nat := 8

/-- GPUTextureUsage.RENDER_ATTACHMENT. -/
def RENDER_ATTACHMENT : Nat := 16

/-- videoFrame.displayWidth with the 1280 fallback for a falsy value. -/
def procWidth (f : VideoFrame) : Nat :=
  if f.displayWidth = 0 then 1280 else f.displayWidth

/-- videoFrame.displayHeight with the 720 fallback for a falsy value. -/
def procHeight (f : VideoFrame) : Nat :=
  if f.displayHeight = 0 then 720 else f.displayHeight

/-- Initial pipeline state: empty cache, no mask texture, offscreen canvas
constructed as new OffscreenCanvas(1280, 720). -/
def initSt : St := ⟨0, [], [], none, 1280, 720⟩

namespace ClassImpl

/-- The segmenter collaborator of the class implementation: truthiness of
the segmentGPUBuffer method, the deviceType string, and the dimensions of
the mask ImageData its CPU segment() call reports back. -/
structure Segmenter where
  segmentGPUBuffer : Bool
  deviceType : String
  maskW : Nat
  maskH : Nat
deriving Repr, DecidableEq

/-- Construction-time configuration of WebGPURenderer: the preferred
canvas format reported by navigator.gpu, the zeroCopy and directOutput
flags, the attached segmenter, and the identifier of the downscale
sampler created in the constructor. -/
structure Config where
  preferredFormat : String
  zeroCopy : Bool
  directOutput : Bool
  seg : Segmenter
  samplerId : Nat
deriving Repr, DecidableEq

/-- this.format of the WebGPURenderer constructor. -/
def Config.format (c : Config) : String :=
  if c.directOutput then c.preferredFormat else "rgba8unorm"

/-- this.segmentationWidth. -/
def segmentationWidth : Nat := 256

/-- this.segmentationHeight. -/
def segmentationHeight : Nat := 144

/-- The pack shader URL selected in the WebGPURenderer constructor from
the segmenter capability flags. -/
def Config.packShaderUrl (c : Config) : String :=
  if c.seg.segmentGPUBuffer && (c.seg.deviceType == "gpu") then
    "blur4/shaders/downscale-and-convert-to-rgb16float.wgsl"
  else
    "blur4/shaders/downscale-and-convert-to-rgba8uint.wgsl"

/-- device.createTexture plus storing the result under the cache key. -/
def createTexture (c : Config) (key : RKey) (w h usage : Nat) (s : St) : Texture × St :=
  let t : Texture := ⟨s.nextId, w, h, c.format, usage⟩
  (t, { s with nextId := s.nextId + 1, cache := setRes s.cache key (Res.tex t) })

/-- WebGPURenderer.getOrCreateTexture: looks up the size/format/usage
keyed entry; destroys and recreates when the cached texture its own
dimensions do not match, otherwise reuses it. -/
def getOrCreateTexture (c : Config) (name : String) (w h usage : Nat) (s : St) : Texture × St :=
  match lookupRes s.cache (RKey.texKey name w h c.format usage) with
  | some (Res.tex t) =>
    if t.width ≠ w ∨ t.height ≠ h then
      createTexture c (RKey.texKey name w h c.format usage) w h usage
        { s with destroyed := s.destroyed ++ [t.id] }
    else
      (t, s)
  | some r =>
    createTexture c (RKey.texKey name w h c.format usage) w h usage
      { s with destroyed := s.destroyed ++ [r.rid] }
  | none => createTexture c (RKey.texKey name w h c.format usage) w h usage s

/-- WebGPURenderer.getOrCreateResource: plain memoization, no size check
and no release of superseded objects. -/
def getOrCreateResource (key : RKey) (mk : St → Res × St) (s : St) : Res × St :=
  match lookupRes s.cache key with
  | some r => (r, s)
  | none =>
    let p := mk s
    (p.1, { p.2 with cache := setRes p.2.cache key p.1 })

/-- The downscaledResource local of WebGPURenderer.segment: either the
segmenter-provided GPU input buffer or a cached downscale texture. -/
inductive DownRes where
  | ofBuffer (id : Nat)
  | ofTexture (t : Texture)
deriving Repr, DecidableEq

/-- Reading the .texture field of the downscaledResource object: absent
(undefined) on the buffer variant. -/
def DownRes.textureField : DownRes → Option Texture
  | .ofBuffer _ => none
  | .ofTexture t => some t

/-- WebGPURenderer.segment: capability check, downscale bind group and
dispatch, then either the GPU-native buffer exchange or the CPU
readback/upload protocol.  Returns the mask texture, the updated state
and the observable events in program order. -/
def segment (c : Config) (srcId : Nat) (s0 : St) : Texture × St × List Event :=
  let useInterop := c.seg.segmentGPUBuffer && (c.seg.deviceType == "gpu")
  let downRes : DownRes :=
    if useInterop then DownRes.ofBuffer s0.nextId
    else DownRes.ofTexture (getOrCreateTexture c "downscaledTexture" segmentationWidth
      segmentationHeight (STORAGE_BINDING ||| COPY_SRC ||| RENDER_ATTACHMENT) s0).1
  let s1 : St :=
    if useInterop then { s0 with nextId := s0.nextId + 1 }
    else (getOrCreateTexture c "downscaledTexture" segmentationWidth
      segmentationHeight (STORAGE_BINDING ||| COPY_SRC ||| RENDER_ATTACHMENT) s0).2
  let e1 : List Event :=
    if useInterop then [Event.getInputBuffer s0.nextId] else []
  let packEntries : List (Nat × Option Nat) :=
    [(0, some srcId), (1, some c.samplerId), (2, (downRes.textureField).map Texture.id)]
  let e2 := [Event.createBindGroup packEntries,
    Event.dispatchWorkgroups ((segmentationWidth + 7) / 8) ((segmentationHeight + 7) / 8)]
  if useInterop then
    let bufId := match downRes with
      | .ofBuffer i => i
      | .ofTexture t => t.id
    let s2 := { s1 with destroyed := s1.destroyed ++ [bufId] }
    let outBufId := s2.nextId
    let s3 := { s2 with nextId := s2.nextId + 1 }
    let newMask : Texture := ⟨s3.nextId, segmentationWidth, segmentationHeight, "r16float",
      TEXTURE_BINDING ||| COPY_DST ||| RENDER_ATTACHMENT⟩
    let mt : Texture :=
      match s3.maskTex with
      | some t => t
      | none => newMask
    let s4 : St :=
      match s3.maskTex with
      | some _ => s3
      | none => { s3 with nextId := s3.nextId + 1, maskTex := some newMask }
    let s5 := { s4 with destroyed := s4.destroyed ++ [outBufId] }
    (mt, s5, e1 ++ e2 ++
      [Event.submit, Event.gpuInference, Event.copyBufferToTexture outBufId mt.id, Event.submit])
  else
    let bufferSize := segmentationWidth * segmentationHeight * 4
    let rb := (getOrCreateResource (RKey.bufKey "readbackBuffer" bufferSize)
      (fun s => (Res.buf s.nextId bufferSize, { s with nextId := s.nextId + 1 })) s1).1
    let s2 := (getOrCreateResource (RKey.bufKey "readbackBuffer" bufferSize)
      (fun s => (Res.buf s.nextId bufferSize, { s with nextId := s.nextId + 1 })) s1).2
    let e3 := [Event.copyTextureToBuffer rb.rid, Event.submit, Event.mapAsyncRead rb.rid,
      Event.cpuSegment segmentationWidth segmentationHeight]
    let mt := (getOrCreateTexture c "maskTexture" c.seg.maskW c.seg.maskH
      (TEXTURE_BINDING ||| COPY_DST ||| RENDER_ATTACHMENT) s2).1
    let s3 := (getOrCreateTexture c "maskTexture" c.seg.maskW c.seg.maskH
      (TEXTURE_BINDING ||| COPY_DST ||| RENDER_ATTACHMENT) s2).2
    (mt, s3, e1 ++ e2 ++ e3 ++ [Event.writeTexture mt.id c.seg.maskW c.seg.maskH])

/-- The canvas resize block of WebGPURenderer.render: when the incoming
processing resolution differs from the current canvas size, the canvas is
resized (and the context reconfigured); otherwise nothing happens. -/
def resizeCanvas (s : St) (pW pH : Nat) : St :=
  if s.canvasW ≠ pW ∨ s.canvasH ≠ pH then { s with canvasW := pW, canvasH := pH } else s

/-- WebGPURenderer.render: source import, segmentation, canvas resize,
blur orchestration and the optional composite pass; returns the outgoing
frame (built from the canvas with the input timestamp and duration), the
updated state and the observable events in program order. -/
def render (c : Config) (frame : VideoFrame) (s0 : St) : OutFrame × St × List Event :=
  let srcId : Nat :=
    if c.zeroCopy then s0.nextId
    else (getOrCreateTexture c "sourceTexture" frame.displayWidth frame.displayHeight
      (TEXTURE_BINDING ||| COPY_DST ||| RENDER_ATTACHMENT) s0).1.id
  let s1 : St :=
    if c.zeroCopy then { s0 with nextId := s0.nextId + 1 }
    else (getOrCreateTexture c "sourceTexture" frame.displayWidth frame.displayHeight
      (TEXTURE_BINDING ||| COPY_DST ||| RENDER_ATTACHMENT) s0).2
  let maskT := (segment c srcId s1).1
  let s2 := (segment c srcId s1).2.1
  let eSeg := (segment c srcId s1).2.2
  let pW := procWidth frame
  let pH := procHeight frame
  let s3 := resizeCanvas s2 pW pH
  let width := s3.canvasW
  let height := s3.canvasH
  let canvasId := s3.nextId
  let s4 := { s3 with nextId := s3.nextId + 1 }
  let outT := (getOrCreateTexture c "outputTexture" width height
    (STORAGE_BINDING ||| COPY_SRC ||| TEXTURE_BINDING) s4).1
  let s5 := (getOrCreateTexture c "outputTexture" width height
    (STORAGE_BINDING ||| COPY_SRC ||| TEXTURE_BINDING) s4).2
  let encId := s5.nextId
  let s6 := { s5 with nextId := s5.nextId + 1 }
  let eBlur := [Event.setInputDimensions pW pH,
    Event.blur encId srcId maskT.id (if c.directOutput then canvasId else outT.id) 360]
  let eComp : List Event :=
    if c.directOutput then []
    else [Event.renderPass [⟨canvasId, 0, 0, 0, 1, "clear", "store"⟩] [⟨6, 1, false⟩]]
  let s7 : St :=
    if c.directOutput then s6
    else (getOrCreateResource (RKey.pipeKey "renderPipeline" width height)
      (fun s => (Res.pipe s.nextId, { s with nextId := s.nextId + 1 })) s6).2
  (⟨s7.canvasW, s7.canvasH, frame.timestamp, frame.duration⟩, s7,
    eSeg ++ [Event.getCurrentTexture canvasId] ++ eBlur ++ eComp ++ [Event.submit])

end ClassImpl

namespace Closure

/-- getTextureFormat of webgpu-renderer.js: the preferred canvas format
when directOutput, rgba8unorm otherwise. -/
def getTextureFormat (preferredFormat : String) (directOutput : Bool) : String :=
  if directOutput then preferredFormat else "rgba8unorm"

/-- The params object threaded through renderWithWebGPU: preferred canvas
format, the configuration flags, the fixed segmentation resolution, the
dimensions of the mask ImageData the CPU segmenter returns, and the
identifier of the downscale sampler. -/
structure Params where
  preferredFormat : String
  zeroCopy : Bool
  directOutput : Bool
  segmentationWidth : Nat
  segmentationHeight : Nat
  segOutW : Nat
  segOutH : Nat
  samplerId : Nat
deriving Repr, DecidableEq

/-- device.createTexture plus storing the result under the cache key,
closure variant (format computed per call from directOutput). -/
def createTexture (preferredFormat : String) (key : RKey) (w h : Nat) (directOutput : Bool)
    (usage : Nat) (s : St) : Texture × St :=
  let t : Texture := ⟨s.nextId, w, h, getTextureFormat preferredFormat directOutput, usage⟩
  (t, { s with nextId := s.nextId + 1, cache := setRes s.cache key (Res.tex t) })

/-- getOrCreateTexture of webgpu-renderer.js: identical cache discipline
to the class variant but with the format recomputed on every call. -/
def getOrCreateTexture (preferredFormat : String) (name : String) (w h : Nat)
    (directOutput : Bool) (usage : Nat) (s : St) : Texture × St :=
  match lookupRes s.cache
      (RKey.texKey name w h (getTextureFormat preferredFormat directOutput) usage) with
  | some (Res.tex t) =>
    if t.width ≠ w ∨ t.height ≠ h then
      createTexture preferredFormat
        (RKey.texKey name w h (getTextureFormat preferredFormat directOutput) usage) w h
        directOutput usage { s with destroyed := s.destroyed ++ [t.id] }
    else
      (t, s)
  | some r =>
    createTexture preferredFormat
      (RKey.texKey name w h (getTextureFormat preferredFormat directOutput) usage) w h
      directOutput usage { s with destroyed := s.destroyed ++ [r.rid] }
  | none =>
    createTexture preferredFormat
      (RKey.texKey name w h (getTextureFormat preferredFormat directOutput) usage) w h
      directOutput usage s

/-- getOrCreateResource of webgpu-renderer.js: plain memoization. -/
def getOrCreateResource (key : RKey) (mk : St → Res × St) (s : St) : Res × St :=
  match lookupRes s.cache key with
  | some r => (r, s)
  | none =>
    let p := mk s
    (p.1, { p.2 with cache := setRes p.2.cache key p.1 })

/-- renderWithWebGPU of webgpu-renderer.js.  The fail flag forces the
(unprotected) render bind group construction to throw, modelling a
per-frame bind-group failure; the downscale bind group is wrapped in its
own try/catch in the source, a failure there is swallowed.  The canvas
resize branch of the source evaluates context.configure, but context is
not a variable in scope in renderWithWebGPU (only params.context is), so
that branch throws a ReferenceError after mutating the canvas size.
Returns the result or the thrown error, the updated state and the
observable events in program order. -/
def renderWithWebGPU (p : Params) (frame : VideoFrame) (fail : Bool) (s0 : St) :
    Except String OutFrame × St × List Event :=
  let width := s0.canvasW
  let height := s0.canvasH
  let srcId : Nat :=
    if p.zeroCopy then s0.nextId
    else (getOrCreateTexture p.preferredFormat "sourceTexture" frame.displayWidth
      frame.displayHeight p.directOutput (TEXTURE_BINDING ||| COPY_DST ||| RENDER_ATTACHMENT)
      s0).1.id
  let s1 : St :=
    if p.zeroCopy then { s0 with nextId := s0.nextId + 1 }
    else (getOrCreateTexture p.preferredFormat "sourceTexture" frame.displayWidth
      frame.displayHeight p.directOutput (TEXTURE_BINDING ||| COPY_DST ||| RENDER_ATTACHMENT)
      s0).2
  let destT := (getOrCreateTexture p.preferredFormat "downscaleDest" p.segmentationWidth
    p.segmentationHeight p.directOutput (STORAGE_BINDING ||| COPY_SRC) s1).1
  let s2 := (getOrCreateTexture p.preferredFormat "downscaleDest" p.segmentationWidth
    p.segmentationHeight p.directOutput (STORAGE_BINDING ||| COPY_SRC) s1).2
  let e1 := [Event.createBindGroup [(0, some srcId), (1, some p.samplerId), (2, some destT.id)],
    Event.dispatchWorkgroups ((p.segmentationWidth + 7) / 8) ((p.segmentationHeight + 7) / 8)]
  let bufferSize := p.segmentationWidth * p.segmentationHeight * 4
  let rb := (getOrCreateResource (RKey.bufKey "readbackBuffer" bufferSize)
    (fun s => (Res.buf s.nextId bufferSize, { s with nextId := s.nextId + 1 })) s2).1
  let s3 := (getOrCreateResource (RKey.bufKey "readbackBuffer" bufferSize)
    (fun s => (Res.buf s.nextId bufferSize, { s with nextId := s.nextId + 1 })) s2).2
  let e2 := [Event.copyTextureToBuffer rb.rid, Event.submit, Event.mapAsyncRead rb.rid,
    Event.cpuSegment p.segmentationWidth p.segmentationHeight]
  let maskT := (getOrCreateTexture p.preferredFormat "maskTexture" p.segOutW p.segOutH
    p.directOutput (TEXTURE_BINDING ||| COPY_DST ||| RENDER_ATTACHMENT) s3).1
  let s4 := (getOrCreateTexture p.preferredFormat "maskTexture" p.segOutW p.segOutH
    p.directOutput (TEXTURE_BINDING ||| COPY_DST ||| RENDER_ATTACHMENT) s3).2
  let e3 := [Event.writeTexture maskT.id p.segOutW p.segOutH]
  let pW := procWidth frame
  let pH := procHeight frame
  if s4.canvasW ≠ pW ∨ s4.canvasH ≠ pH then
    (Except.error "ReferenceError: context is not defined",
      { s4 with canvasW := pW, canvasH := pH }, e1 ++ e2 ++ e3)
  else
    let canvasId := s4.nextId
    let s5 := { s4 with nextId := s4.nextId + 1 }
    let outT := (getOrCreateTexture p.preferredFormat "outputTexture" width height
      p.directOutput (STORAGE_BINDING ||| COPY_SRC ||| TEXTURE_BINDING) s5).1
    let s6 := (getOrCreateTexture p.preferredFormat "outputTexture" width height
      p.directOutput (STORAGE_BINDING ||| COPY_SRC ||| TEXTURE_BINDING) s5).2
    let encId := s6.nextId
    let s7 := { s6 with nextId := s6.nextId + 1 }
    let e4 := [Event.getCurrentTexture canvasId, Event.setInputDimensions pW pH,
      Event.blur encId srcId maskT.id (if p.directOutput then canvasId else outT.id) 360]
    if p.directOutput then
      (Except.ok ⟨s7.canvasW, s7.canvasH, frame.timestamp, frame.duration⟩, s7,
        e1 ++ e2 ++ e3 ++ e4 ++ [Event.submit])
    else
      let s8 := (getOrCreateResource (RKey.pipeKey "renderPipeline" width height)
        (fun s => (Res.pipe s.nextId, { s with nextId := s.nextId + 1 })) s7).2
      if fail then
        (Except.error "bind group creation failed", s8, e1 ++ e2 ++ e3 ++ e4)
      else
        (Except.ok ⟨s8.canvasW, s8.canvasH, frame.timestamp, frame.duration⟩, s8,
          e1 ++ e2 ++ e3 ++ e4 ++
            [Event.renderPass [⟨canvasId, 0, 0, 0, 1, "clear", "store"⟩] [⟨6, 1, false⟩],
             Event.submit])

/-- The render operation returned by createWebGPUBlurRenderer: awaits
renderWithWebGPU inside try/catch, logging a caught error and resolving
to no result. -/
def render (p : Params) (frame : VideoFrame) (fail : Bool) (s : St) : Option OutFrame × St :=
  match (renderWithWebGPU p frame fail s).1 with
  | Except.ok f => (some f, (renderWithWebGPU p frame fail s).2.1)
  | Except.error _ => (none, (renderWithWebGPU p frame fail s).2.1)

/-- The downscale compute shader main function of webgpu-renderer.js,
restricted to its addressing behaviour: an invocation at global id
(gx, gy) against output dimensions (outW, outH) either early-returns
(none) when gx >= outW or gy >= outH, or performs exactly one
textureStore at coordinate (gx, gy). -/
def downscaleShaderMain (gx gy outW outH : Nat) : Option (Nat × Nat) :=
  if gx ≥ outW ∨ gy ≥ outH then none else some (gx, gy)

end Closure

/-! Concrete fixtures used by counterexamples and witnesses. -/

/-- A CPU-affine segmenter reporting a 64 by 36 mask. -/
def segCpu : ClassImpl.Segmenter := ⟨false, "cpu", 64, 36⟩

/-- A GPU-affine segmenter exposing GPU buffer exchange. -/
def segGpu : ClassImpl.Segmenter := ⟨true, "gpu", 64, 36⟩

/-- Composited-mode configuration with a CPU segmenter on a platform whose
preferred canvas format is bgra8unorm. -/
def cfgCpu : ClassImpl.Config := ⟨"bgra8unorm", false, false, segCpu, 500⟩

/-- Same configuration but with directOutput enabled. -/
def cfgCpuDirect : ClassImpl.Config := ⟨"bgra8unorm", false, true, segCpu, 500⟩

/-- Composited-mode configuration with a GPU-native segmenter. -/
def cfgGpu : ClassImpl.Config := ⟨"bgra8unorm", false, false, segGpu, 500⟩

/-- A 640 by 360 input frame. -/
def frameA : VideoFrame := ⟨640, 360, 7, some 33⟩

/-- A 1920 by 1080 input frame, differing from frameA in display size. -/
def frameB : VideoFrame := ⟨1920, 1080, 8, some 33⟩

/-- First call of the class renderer on frameA from the initial state. -/
def runA : OutFrame × St × List Event := ClassImpl.render cfgCpu frameA initSt

/-- Second call on frameB, whose display dimensions differ from frameA. -/
def runB : OutFrame × St × List Event := ClassImpl.render cfgCpu frameB runA.2.1

/-- Closure-implementation params with a CPU segmenter, composited mode. -/
def paramsCpu : Closure.Params := ⟨"bgra8unorm", false, false, 256, 144, 64, 36, 500⟩

/-! Association-list and state-preservation lemmas. -/

theorem lookupRes_setRes_self (l : List (RKey × Res)) (k : RKey) (r : Res) :
    lookupRes (setRes l k r) k = some r := by
  induction l with
  | nil => simp [setRes, lookupRes]
  | cons hd tl ih =>
    obtain ⟨k0, r0⟩ := hd
    by_cases h : k = k0
    · simp [setRes, h, lookupRes]
    · simp [setRes, h, lookupRes, ih]

theorem lookupRes_setRes_ne (l : List (RKey × Res)) (k k' : RKey) (r : Res) (h : k ≠ k') :
    lookupRes (setRes l k' r) k = lookupRes l k := by
  induction l with
  | nil => simp [setRes, lookupRes, h]
  | cons hd tl ih =>
    obtain ⟨k0, r0⟩ := hd
    by_cases h0 : k' = k0
    · subst h0
      simp [setRes, lookupRes, h]
    · by_cases h1 : k = k0
      · simp [setRes, h0, lookupRes, h1]
      · simp [setRes, h0, lookupRes, h1, ih]

theorem Closure.texCanvasW (pf name : String) (w h : Nat) (dOut : Bool)
    (u : Nat) (s : St) :
    ((Closure.getOrCreateTexture pf name w h dOut u s).2).canvasW = s.canvasW := by
  unfold Closure.getOrCreateTexture Closure.createTexture
  rcases hl : lookupRes s.cache (RKey.texKey name w h (Closure.getTextureFormat pf dOut) u) with
    _ | (t | ⟨i, b⟩ | i)
  · rfl
  · dsimp only
    by_cases hd : t.width ≠ w ∨ t.height ≠ h
    · rw [if_pos hd]
    · rw [if_neg hd]
  · rfl
  · rfl

theorem Closure.texCanvasH (pf name : String) (w h : Nat) (dOut : Bool)
    (u : Nat) (s : St) :
    ((Closure.getOrCreateTexture pf name w h dOut u s).2).canvasH = s.canvasH := by
  unfold Closure.getOrCreateTexture Closure.createTexture
  rcases hl : lookupRes s.cache (RKey.texKey name w h (Closure.getTextureFormat pf dOut) u) with
    _ | (t | ⟨i, b⟩ | i)
  · rfl
  · dsimp only
    by_cases hd : t.width ≠ w ∨ t.height ≠ h
    · rw [if_pos hd]
    · rw [if_neg hd]
  · rfl
  · rfl

theorem Closure.resBufCanvasW (name : String) (b : Nat) (s : St) :
    ((Closure.getOrCreateResource (RKey.bufKey name b)
      (fun s => (Res.buf s.nextId b, { s with nextId := s.nextId + 1 })) s).2).canvasW =
      s.canvasW := by
  unfold Closure.getOrCreateResource
  split <;> rfl

theorem Closure.resBufCanvasH (name : String) (b : Nat) (s : St) :
    ((Closure.getOrCreateResource (RKey.bufKey name b)
      (fun s => (Res.buf s.nextId b, { s with nextId := s.nextId + 1 })) s).2).canvasH =
      s.canvasH := by
  unfold Closure.getOrCreateResource
  split <;> rfl

theorem Closure.resPipeCanvasW (name : String) (a b : Nat) (s : St) :
    ((Closure.getOrCreateResource (RKey.pipeKey name a b)
      (fun s => (Res.pipe s.nextId, { s with nextId := s.nextId + 1 })) s).2).canvasW =
      s.canvasW := by
  unfold Closure.getOrCreateResource
  split <;> rfl

theorem Closure.resPipeCanvasH (name : String) (a b : Nat) (s : St) :
    ((Closure.getOrCreateResource (RKey.pipeKey name a b)
      (fun s => (Res.pipe s.nextId, { s with nextId := s.nextId + 1 })) s).2).canvasH =
      s.canvasH := by
  unfold Closure.getOrCreateResource
  split <;> rfl

theorem ClassImpl.getOrCreateTexture_canvasW (c : ClassImpl.Config) (name : String)
    (w h u : Nat) (s : St) :
    ((ClassImpl.getOrCreateTexture c name w h u s).2).canvasW = s.canvasW := by
  unfold ClassImpl.getOrCreateTexture ClassImpl.createTexture
  rcases hl : lookupRes s.cache (RKey.texKey name w h c.format u) with _ | (t | ⟨i, b⟩ | i)
  · rfl
  · dsimp only
    by_cases hd : t.width ≠ w ∨ t.height ≠ h
    · rw [if_pos hd]
    · rw [if_neg hd]
  · rfl
  · rfl

theorem ClassImpl.getOrCreateTexture_canvasH (c : ClassImpl.Config) (name : String)
    (w h u : Nat) (s : St) :
    ((ClassImpl.getOrCreateTexture c name w h u s).2).canvasH = s.canvasH := by
  unfold ClassImpl.getOrCreateTexture ClassImpl.createTexture
  rcases hl : lookupRes s.cache (RKey.texKey name w h c.format u) with _ | (t | ⟨i, b⟩ | i)
  · rfl
  · dsimp only
    by_cases hd : t.width ≠ w ∨ t.height ≠ h
    · rw [if_pos hd]
    · rw [if_neg hd]
  · rfl
  · rfl

theorem ClassImpl.getOrCreateResource_pipe_canvasW (name : String) (a b : Nat) (s : St) :
    ((ClassImpl.getOrCreateResource (RKey.pipeKey name a b)
      (fun s => (Res.pipe s.nextId, { s with nextId := s.nextId + 1 })) s).2).canvasW =
      s.canvasW := by
  unfold ClassImpl.getOrCreateResource
  rcases hl : lookupRes s.cache (RKey.pipeKey name a b) with _ | r <;> simp [hl]

theorem ClassImpl.getOrCreateResource_pipe_canvasH (name : String) (a b : Nat) (s : St) :
    ((ClassImpl.getOrCreateResource (RKey.pipeKey name a b)
      (fun s => (Res.pipe s.nextId, { s with nextId := s.nextId + 1 })) s).2).canvasH =
      s.canvasH := by
  unfold ClassImpl.getOrCreateResource
  rcases hl : lookupRes s.cache (RKey.pipeKey name a b) with _ | r <;> simp [hl]

theorem ClassImpl.getOrCreateTexture_lookup (c : ClassImpl.Config) (name : String)
    (w h u : Nat) (s : St) :
    lookupRes ((ClassImpl.getOrCreateTexture c name w h u s).2).cache
        (RKey.texKey name w h c.format u) =
      some (Res.tex (ClassImpl.getOrCreateTexture c name w h u s).1) := by
  unfold ClassImpl.getOrCreateTexture ClassImpl.createTexture
  rcases hl : lookupRes s.cache (RKey.texKey name w h c.format u) with _ | (t | ⟨i, b⟩ | i)
  · dsimp only
    exact lookupRes_setRes_self _ _ _
  · dsimp only
    by_cases hd : t.width ≠ w ∨ t.height ≠ h
    · rw [if_pos hd]
      exact lookupRes_setRes_self _ _ _
    · rw [if_neg hd]
      exact hl
  · dsimp only
    exact lookupRes_setRes_self _ _ _
  · dsimp only
    exact lookupRes_setRes_self _ _ _

theorem ClassImpl.getOrCreateResource_pipe_lookup_tex (name : String) (a b : Nat) (s : St)
    (n2 f2 : String) (w2 h2 u2 : Nat) :
    lookupRes ((ClassImpl.getOrCreateResource (RKey.pipeKey name a b)
      (fun s => (Res.pipe s.nextId, { s with nextId := s.nextId + 1 })) s).2).cache
        (RKey.texKey n2 w2 h2 f2 u2) =
      lookupRes s.cache (RKey.texKey n2 w2 h2 f2 u2) := by
  unfold ClassImpl.getOrCreateResource
  rcases hl : lookupRes s.cache (RKey.pipeKey name a b) with _ | r
  · dsimp only
    exact lookupRes_setRes_ne _ _ _ _ (fun hcon => RKey.noConfusion hcon)
  · rfl

theorem ClassImpl.getOrCreateResource_buf_canvasW (name : String) (b : Nat) (s : St) :
    ((ClassImpl.getOrCreateResource (RKey.bufKey name b)
      (fun s => (Res.buf s.nextId b, { s with nextId := s.nextId + 1 })) s).2).canvasW =
      s.canvasW := by
  unfold ClassImpl.getOrCreateResource
  split <;> rfl

theorem ClassImpl.getOrCreateResource_buf_canvasH (name : String) (b : Nat) (s : St) :
    ((ClassImpl.getOrCreateResource (RKey.bufKey name b)
      (fun s => (Res.buf s.nextId b, { s with nextId := s.nextId + 1 })) s).2).canvasH =
      s.canvasH := by
  unfold ClassImpl.getOrCreateResource
  split <;> rfl

theorem ClassImpl.segment_countP_blur (c : ClassImpl.Config) (srcId : Nat) (s : St) :
    ((ClassImpl.segment c srcId s).2.2).countP Event.isBlur = 0 := by
  by_cases h : (c.seg.segmentGPUBuffer && (c.seg.deviceType == "gpu")) = true <;>
    simp [ClassImpl.segment, h, List.countP_append, List.countP_cons, Event.isBlur]

theorem ClassImpl.segment_countP_sid (c : ClassImpl.Config) (srcId : Nat) (s : St) :
    ((ClassImpl.segment c srcId s).2.2).countP Event.isSetInputDimensions = 0 := by
  by_cases h : (c.seg.segmentGPUBuffer && (c.seg.deviceType == "gpu")) = true <;>
    simp [ClassImpl.segment, h, List.countP_append, List.countP_cons, Event.isSetInputDimensions]

theorem ClassImpl.segment_passes (c : ClassImpl.Config) (srcId : Nat) (s : St) :
    ((ClassImpl.segment c srcId s).2.2).filterMap Event.toPass = [] := by
  by_cases h : (c.seg.segmentGPUBuffer && (c.seg.deviceType == "gpu")) = true <;>
    simp [ClassImpl.segment, h, List.filterMap_append, Event.toPass]

theorem ClassImpl.segment_canvasW (c : ClassImpl.Config) (srcId : Nat) (s : St) :
    ((ClassImpl.segment c srcId s).2.1).canvasW = s.canvasW := by
  by_cases h : (c.seg.segmentGPUBuffer && (c.seg.deviceType == "gpu")) = true
  · cases hm : s.maskTex <;>
      simp [ClassImpl.segment, h, hm, ClassImpl.getOrCreateTexture_canvasW,
        ClassImpl.getOrCreateResource_buf_canvasW]
  · simp [ClassImpl.segment, h, ClassImpl.getOrCreateTexture_canvasW,
      ClassImpl.getOrCreateResource_buf_canvasW]

theorem ClassImpl.segment_canvasH (c : ClassImpl.Config) (srcId : Nat) (s : St) :
    ((ClassImpl.segment c srcId s).2.1).canvasH = s.canvasH := by
  by_cases h : (c.seg.segmentGPUBuffer && (c.seg.deviceType == "gpu")) = true
  · cases hm : s.maskTex <;>
      simp [ClassImpl.segment, h, hm, ClassImpl.getOrCreateTexture_canvasH,
        ClassImpl.getOrCreateResource_buf_canvasH]
  · simp [ClassImpl.segment, h, ClassImpl.getOrCreateTexture_canvasH,
      ClassImpl.getOrCreateResource_buf_canvasH]

theorem ClassImpl.resizeCanvas_canvasW (s : St) (pW pH : Nat) :
    (ClassImpl.resizeCanvas s pW pH).canvasW = pW := by
  unfold ClassImpl.resizeCanvas
  split
  · rfl
  · next hcon =>
    push_neg at hcon
    exact hcon.1

theorem ClassImpl.resizeCanvas_canvasH (s : St) (pW pH : Nat) :
    (ClassImpl.resizeCanvas s pW pH).canvasH = pH := by
  unfold ClassImpl.resizeCanvas
  split
  · rfl
  · next hcon =>
    push_neg at hcon
    exact hcon.2

theorem ClassImpl.render_events (c : ClassImpl.Config) (f : VideoFrame) (s : St) :
    ∃ eSeg cid encId srcId maskId dstId,
      (ClassImpl.render c f s).2.2 =
        eSeg ++ [Event.getCurrentTexture cid] ++
        [Event.setInputDimensions (procWidth f) (procHeight f),
         Event.blur encId srcId maskId dstId 360] ++
        (if c.directOutput then ([] : List Event) else
          [Event.renderPass [⟨cid, 0, 0, 0, 1, "clear", "store"⟩] [⟨6, 1, false⟩]]) ++
        [Event.submit] ∧
      eSeg.countP Event.isBlur = 0 ∧
      eSeg.countP Event.isSetInputDimensions = 0 ∧
      eSeg.filterMap Event.toPass = [] ∧
      (c.directOutput = true → dstId = cid) ∧
      (c.directOutput = false → ∃ t : Texture,
        lookupRes ((ClassImpl.render c f s).2.1).cache
            (RKey.texKey "outputTexture" (procWidth f) (procHeight f) c.format
              (STORAGE_BINDING ||| COPY_SRC ||| TEXTURE_BINDING)) = some (Res.tex t) ∧
        dstId = t.id) := by
  simp only [ClassImpl.render, ClassImpl.resizeCanvas_canvasW, ClassImpl.resizeCanvas_canvasH]
  refine ⟨_, _, _, _, _, _, rfl, ?_, ?_, ?_, ?_, ?_⟩
  · exact ClassImpl.segment_countP_blur _ _ _
  · exact ClassImpl.segment_countP_sid _ _ _
  · exact ClassImpl.segment_passes _ _ _
  · intro h
    simp [h]
  · intro h
    simp only [h, Bool.false_eq_true, if_false]
    rw [ClassImpl.getOrCreateResource_pipe_lookup_tex]
    exact ⟨_, ClassImpl.getOrCreateTexture_lookup _ _ _ _ _ _, rfl⟩

theorem Closure.renderWithWebGPU_canvasW (p : Closure.Params) (f : VideoFrame) (fail : Bool)
    (s : St) :
    ((Closure.renderWithWebGPU p f fail s).2.1).canvasW = procWidth f := by
  unfold Closure.renderWithWebGPU
  by_cases hz : p.zeroCopy <;>
    simp only [hz, Bool.false_eq_true, if_true, if_false, ite_true, ite_false] <;>
    split
  case pos.isTrue => rfl
  case neg.isTrue => rfl
  case pos.isFalse =>
    rename_i hcond
    push_neg at hcond
    simp only [Closure.texCanvasW, Closure.resBufCanvasW]
      at hcond
    split <;> (try split) <;>
      simp [Closure.texCanvasW, Closure.resBufCanvasW,
        Closure.resPipeCanvasW, hcond.1]
  case neg.isFalse =>
    rename_i hcond
    push_neg at hcond
    simp only [Closure.texCanvasW, Closure.resBufCanvasW]
      at hcond
    split <;> (try split) <;>
      simp [Closure.texCanvasW, Closure.resBufCanvasW,
        Closure.resPipeCanvasW, hcond.1]

theorem Closure.renderWithWebGPU_canvasH (p : Closure.Params) (f : VideoFrame) (fail : Bool)
    (s : St) :
    ((Closure.renderWithWebGPU p f fail s).2.1).canvasH = procHeight f := by
  unfold Closure.renderWithWebGPU
  by_cases hz : p.zeroCopy <;>
    simp only [hz, Bool.false_eq_true, if_true, if_false, ite_true, ite_false] <;>
    split
  case pos.isTrue => rfl
  case neg.isTrue => rfl
  case pos.isFalse =>
    rename_i hcond
    push_neg at hcond
    simp only [Closure.texCanvasH, Closure.resBufCanvasH]
      at hcond
    split <;> (try split) <;>
      simp [Closure.texCanvasH, Closure.resBufCanvasH,
        Closure.resPipeCanvasH, hcond.2]
  case neg.isFalse =>
    rename_i hcond
    push_neg at hcond
    simp only [Closure.texCanvasH, Closure.resBufCanvasH]
      at hcond
    split <;> (try split) <;>
      simp [Closure.texCanvasH, Closure.resBufCanvasH,
        Closure.resPipeCanvasH, hcond.2]

theorem Closure.renderWithWebGPU_error_of_fail (p : Closure.Params) (f : VideoFrame) (s : St)
    (hdo : p.directOutput = false) :
    ∃ e, (Closure.renderWithWebGPU p f true s).1 = Except.error e := by
  unfold Closure.renderWithWebGPU
  by_cases hz : p.zeroCopy <;>
    simp [hz, hdo] <;> split <;> simp

theorem Closure.renderWithWebGPU_ok (p : Closure.Params) (f : VideoFrame) (s : St)
    (hW : s.canvasW = procWidth f) (hH : s.canvasH = procHeight f) :
    (Closure.renderWithWebGPU p f false s).1 =
      Except.ok ⟨procWidth f, procHeight f, f.timestamp, f.duration⟩ := by
  unfold Closure.renderWithWebGPU
  by_cases hz : p.zeroCopy <;> by_cases hdo : p.directOutput <;>
    simp [hz, hdo, Closure.texCanvasW, Closure.texCanvasH,
      Closure.resBufCanvasW, Closure.resBufCanvasH,
      Closure.resPipeCanvasW, Closure.resPipeCanvasH,
      hW, hH]

theorem Closure.renderWithWebGPU_ok_inv (p : Closure.Params) (f : VideoFrame) (fail : Bool)
    (s : St) (o : OutFrame) (h : (Closure.renderWithWebGPU p f fail s).1 = Except.ok o) :
    o.timestamp = f.timestamp ∧ o.duration = f.duration ∧
    o.width = procWidth f ∧ o.height = procHeight f := by
  unfold Closure.renderWithWebGPU at h
  by_cases hz : p.zeroCopy <;> by_cases hdo : p.directOutput <;> by_cases hf : fail <;>
    simp only [hz, hdo, hf, Bool.false_eq_true, if_true, if_false, ite_true, ite_false,
      Closure.texCanvasW, Closure.texCanvasH,
      Closure.resBufCanvasW, Closure.resBufCanvasH,
      Closure.resPipeCanvasW, Closure.resPipeCanvasH] at h <;>
  by_cases hrW : s.canvasW = procWidth f <;> by_cases hrH : s.canvasH = procHeight f <;>
    simp [hrW, hrH] at h <;>
    simp [← h, hrW, hrH]

theorem Closure.renderWithWebGPU_dispatches (p : Closure.Params) (f : VideoFrame) (fail : Bool)
    (s : St) :
    ((Closure.renderWithWebGPU p f fail s).2.2).filterMap Event.toDispatch =
      [((p.segmentationWidth + 7) / 8, (p.segmentationHeight + 7) / 8)] := by
  unfold Closure.renderWithWebGPU
  by_cases hz : p.zeroCopy <;> by_cases hdo : p.directOutput <;> by_cases hf : fail <;>
    simp [hz, hdo, hf, List.filterMap_append, Event.toDispatch] <;>
    split <;> simp [List.filterMap_append, Event.toDispatch]

theorem Closure.texLookup (pf name : String) (w h : Nat) (dOut : Bool)
    (u : Nat) (s : St) :
    lookupRes ((Closure.getOrCreateTexture pf name w h dOut u s).2).cache
        (RKey.texKey name w h (Closure.getTextureFormat pf dOut) u) =
      some (Res.tex (Closure.getOrCreateTexture pf name w h dOut u s).1) := by
  unfold Closure.getOrCreateTexture Closure.createTexture
  rcases hl : lookupRes s.cache (RKey.texKey name w h (Closure.getTextureFormat pf dOut) u) with
    _ | (t | ⟨i, b⟩ | i)
  · dsimp only
    exact lookupRes_setRes_self _ _ _
  · dsimp only
    by_cases hd : t.width ≠ w ∨ t.height ≠ h
    · rw [if_pos hd]
      exact lookupRes_setRes_self _ _ _
    · rw [if_neg hd]
      exact hl
  · dsimp only
    exact lookupRes_setRes_self _ _ _
  · dsimp only
    exact lookupRes_setRes_self _ _ _

theorem Closure.getOrCreateTexture_dims (pf name : String) (w h : Nat) (dOut : Bool)
    (u : Nat) (s : St) :
    ((Closure.getOrCreateTexture pf name w h dOut u s).1).width = w ∧
    ((Closure.getOrCreateTexture pf name w h dOut u s).1).height = h := by
  unfold Closure.getOrCreateTexture Closure.createTexture
  rcases hl : lookupRes s.cache (RKey.texKey name w h (Closure.getTextureFormat pf dOut) u) with
    _ | (t | ⟨i, b⟩ | i)
  · exact ⟨rfl, rfl⟩
  · dsimp only
    by_cases hd : t.width ≠ w ∨ t.height ≠ h
    · rw [if_pos hd]
      exact ⟨rfl, rfl⟩
    · rw [if_neg hd]
      push_neg at hd
      exact hd
  · exact ⟨rfl, rfl⟩
  · exact ⟨rfl, rfl⟩

/-! Claim theorems. -/

/-- Claim C1: on every segmentation call the capability check
(supportsGPUBuffer together with a deviceAffinity of gpu, read as the
truthiness of segmentGPUBuffer and deviceType equal to gpu) is evaluated
fresh from the segmenter attached to the configuration given to that very
call, and it alone selects the path: when it holds, the GPU-native
protocol runs (exactly one GPU inference invocation) and no CPU readback
of the downscaled frame occurs (no map-for-read and no texture-to-buffer
copy); for every other combination of the two flags the CPU readback path
runs (exactly one texture-to-buffer copy, one map-for-read and one CPU
segmenter invocation, and no GPU inference). -/
theorem c1_segmentation_path_capability_check (c : ClassImpl.Config) (srcId : Nat) (s : St) :
    (((ClassImpl.segment c srcId s).2.2).countP Event.isMapAsyncRead,
     ((ClassImpl.segment c srcId s).2.2).countP Event.isCopyTextureToBuffer,
     ((ClassImpl.segment c srcId s).2.2).countP Event.isGpuInference,
     ((ClassImpl.segment c srcId s).2.2).countP Event.isCpuSegment) =
      (if c.seg.segmentGPUBuffer && (c.seg.deviceType == "gpu") then (0, 0, 1, 0)
       else (1, 1, 0, 1)) := by
  by_cases h : (c.seg.segmentGPUBuffer && (c.seg.deviceType == "gpu")) = true <;>
    simp [ClassImpl.segment, h, List.countP_append, List.countP_cons, Event.isMapAsyncRead,
      Event.isCopyTextureToBuffer, Event.isGpuInference, Event.isCpuSegment]

/-- Claim C1 witness: concrete evaluation of the path selection for a
GPU-native segmenter. -/
theorem c1_segmentation_path_witness :
    (((ClassImpl.segment cfgGpu 0 initSt).2.2).countP Event.isMapAsyncRead,
     ((ClassImpl.segment cfgGpu 0 initSt).2.2).countP Event.isCopyTextureToBuffer,
     ((ClassImpl.segment cfgGpu 0 initSt).2.2).countP Event.isGpuInference,
     ((ClassImpl.segment cfgGpu 0 initSt).2.2).countP Event.isCpuSegment) =
      (if cfgGpu.seg.segmentGPUBuffer && (cfgGpu.seg.deviceType == "gpu") then (0, 0, 1, 0)
       else (1, 1, 0, 1)) :=
  c1_segmentation_path_capability_check cfgGpu 0 initSt

/-- Claim C2 counterexample: two consecutive class-renderer calls whose
display dimensions change from 640x360 to 1920x1080.  No cached resource
is ever destroyed (the destroyed list is empty after both calls) and the
downscale destination texture and the readback buffer are not recreated
(the identical cached objects, allocation ids 1 and 2, survive the
dimension change), refuting the statement that every size-dependent
cached resource (including the downscale destination and readback buffer)
is destroyed and recreated on a dimension change. -/
theorem c2_dimension_change_counterexample :
    runB.2.1.destroyed = [] ∧
    lookupRes runA.2.1.cache (RKey.bufKey "readbackBuffer" 147456) =
      some (Res.buf 2 147456) ∧
    lookupRes runB.2.1.cache (RKey.bufKey "readbackBuffer" 147456) =
      some (Res.buf 2 147456) ∧
    lookupRes runA.2.1.cache (RKey.texKey "downscaledTexture" 256 144 "rgba8unorm" 25) =
      some (Res.tex ⟨1, 256, 144, "rgba8unorm", 25⟩) ∧
    lookupRes runB.2.1.cache (RKey.texKey "downscaledTexture" 256 144 "rgba8unorm" 25) =
      some (Res.tex ⟨1, 256, 144, "rgba8unorm", 25⟩) := by
  decide

/-- Claim C2 amended: on a dimension change (640x360 to 1920x1080) call
N+1 still returns a frame at the new dimensions with the input timestamp
and duration, and the frame-size-keyed resources (source texture, output
texture, composite render pipeline) are freshly allocated at the new size
under new size-specific cache keys; however nothing is destroyed - the
old-size entries remain cached - and the downscale destination and
readback buffer, which are keyed by the fixed 256x144 segmentation
resolution, are reused unchanged. -/
theorem c2_dimension_change_amended :
    runB.1 = ⟨1920, 1080, 8, some 33⟩ ∧
    lookupRes runB.2.1.cache (RKey.texKey "sourceTexture" 1920 1080 "rgba8unorm" 22) =
      some (Res.tex ⟨8, 1920, 1080, "rgba8unorm", 22⟩) ∧
    lookupRes runB.2.1.cache (RKey.texKey "outputTexture" 1920 1080 "rgba8unorm" 13) =
      some (Res.tex ⟨10, 1920, 1080, "rgba8unorm", 13⟩) ∧
    lookupRes runB.2.1.cache (RKey.pipeKey "renderPipeline" 1920 1080) = some (Res.pipe 12) ∧
    lookupRes runB.2.1.cache (RKey.texKey "sourceTexture" 640 360 "rgba8unorm" 22) =
      some (Res.tex ⟨0, 640, 360, "rgba8unorm", 22⟩) ∧
    lookupRes runB.2.1.cache (RKey.texKey "outputTexture" 640 360 "rgba8unorm" 13) =
      some (Res.tex ⟨5, 640, 360, "rgba8unorm", 13⟩) ∧
    runB.2.1.destroyed = [] := by
  decide

/-- Claim C3: any exception during a single render invocation (here a
forced bind-group construction failure in composited mode) is caught at
the orchestrator boundary and resolves to no output frame, and the
pipeline remains usable: the next call, on a frame with the same
processing dimensions, succeeds and returns a frame with those dimensions
and the timestamp and duration of its input. -/
theorem c3_per_frame_drop (p : Closure.Params) (f1 f2 : VideoFrame) (s : St)
    (hdo : p.directOutput = false)
    (hW : procWidth f2 = procWidth f1) (hH : procHeight f2 = procHeight f1) :
    (Closure.render p f1 true s).1 = none ∧
    ∃ out, (Closure.render p f2 false (Closure.render p f1 true s).2).1 = some out ∧
      out.width = procWidth f2 ∧ out.height = procHeight f2 ∧
      out.timestamp = f2.timestamp ∧ out.duration = f2.duration := by
  obtain ⟨e, he⟩ := Closure.renderWithWebGPU_error_of_fail p f1 s hdo
  have hn : Closure.render p f1 true s =
      (none, (Closure.renderWithWebGPU p f1 true s).2.1) := by
    unfold Closure.render
    rw [he]
  have hok := Closure.renderWithWebGPU_ok p f2 ((Closure.renderWithWebGPU p f1 true s).2.1)
    (by rw [Closure.renderWithWebGPU_canvasW, hW]) (by rw [Closure.renderWithWebGPU_canvasH, hH])
  refine ⟨by rw [hn], ⟨procWidth f2, procHeight f2, f2.timestamp, f2.duration⟩, ?_, rfl, rfl,
    rfl, rfl⟩
  rw [hn]
  unfold Closure.render
  rw [hok]

/-- Claim C3 witness: concrete two-frame run in composited mode with a
forced bind-group failure on the first frame. -/
theorem c3_per_frame_drop_witness :
    (Closure.render paramsCpu frameA true initSt).1 = none ∧
    ∃ out, (Closure.render paramsCpu frameA false
        (Closure.render paramsCpu frameA true initSt).2).1 = some out ∧
      out.width = procWidth frameA ∧ out.height = procHeight frameA ∧
      out.timestamp = frameA.timestamp ∧ out.duration = frameA.duration :=
  c3_per_frame_drop paramsCpu frameA frameA initSt rfl rfl rfl

/-- Claim C4 counterexample: a request at 100x50 followed by one at
200x100 under the same resource name.  The size change addresses a
different cache key (the key embeds the size), so the old object under
the 100x50 key is NOT released - destroy is never called (the destroyed
list stays empty) and the old texture remains cached - while the new
texture is allocated under the new key; this refutes the part of the
claim stating that on a size mismatch the old object under that key is
released before a new one is allocated under the same key. -/
theorem c4_cache_release_counterexample :
    ((Closure.getOrCreateTexture "bgra8unorm" "sourceTexture" 200 100 false 22
        (Closure.getOrCreateTexture "bgra8unorm" "sourceTexture" 100 50 false 22
          initSt).2).2).destroyed = [] ∧
    lookupRes ((Closure.getOrCreateTexture "bgra8unorm" "sourceTexture" 200 100 false 22
        (Closure.getOrCreateTexture "bgra8unorm" "sourceTexture" 100 50 false 22
          initSt).2).2).cache
      (RKey.texKey "sourceTexture" 100 50 "rgba8unorm" 22) =
      some (Res.tex ⟨0, 100, 50, "rgba8unorm", 22⟩) ∧
    (Closure.getOrCreateTexture "bgra8unorm" "sourceTexture" 200 100 false 22
        (Closure.getOrCreateTexture "bgra8unorm" "sourceTexture" 100 50 false 22
          initSt).2).1 =
      ⟨1, 200, 100, "rgba8unorm", 22⟩ := by
  decide

/-- Claim C4 amended: two consecutive identical-size requests return the
same cached object with no reallocation (the state is unchanged, so the
constructor runs at most once); a request at a different size addresses a
new size-specific cache key, so when that key is vacant a fresh texture
is allocated under it, nothing is destroyed, and the entry under the old
size key is left untouched (the destroy branch of the code is unreachable
because the key already encodes the size). -/
theorem c4_cache_reuse_amended (pf name : String) (w1 h1 w2 h2 u : Nat) (dOut : Bool)
    (s t0 : St) (hne : (w1, h1) ≠ (w2, h2))
    (hmiss : lookupRes s.cache
      (RKey.texKey name w2 h2 (Closure.getTextureFormat pf dOut) u) = none) :
    (Closure.getOrCreateTexture pf name w1 h1 dOut u
        ((Closure.getOrCreateTexture pf name w1 h1 dOut u t0).2) =
      ((Closure.getOrCreateTexture pf name w1 h1 dOut u t0).1,
       (Closure.getOrCreateTexture pf name w1 h1 dOut u t0).2)) ∧
    (Closure.getOrCreateTexture pf name w2 h2 dOut u s).1.id = s.nextId ∧
    ((Closure.getOrCreateTexture pf name w2 h2 dOut u s).2).destroyed = s.destroyed ∧
    lookupRes ((Closure.getOrCreateTexture pf name w2 h2 dOut u s).2).cache
        (RKey.texKey name w1 h1 (Closure.getTextureFormat pf dOut) u) =
      lookupRes s.cache (RKey.texKey name w1 h1 (Closure.getTextureFormat pf dOut) u) := by
  have hl := Closure.texLookup pf name w1 h1 dOut u t0
  have hd := Closure.getOrCreateTexture_dims pf name w1 h1 dOut u t0
  obtain ⟨t1, s1, hres⟩ : ∃ t1 s1, Closure.getOrCreateTexture pf name w1 h1 dOut u t0 =
      (t1, s1) := ⟨_, _, rfl⟩
  rw [hres] at hl hd
  dsimp only at hl hd
  refine ⟨?_, ?_, ?_, ?_⟩
  · rw [hres]
    unfold Closure.getOrCreateTexture
    rw [hl]
    dsimp only
    rw [if_neg (by simp [hd.1, hd.2])]
  · unfold Closure.getOrCreateTexture Closure.createTexture
    rw [hmiss]
  · unfold Closure.getOrCreateTexture Closure.createTexture
    rw [hmiss]
  · unfold Closure.getOrCreateTexture Closure.createTexture
    rw [hmiss]
    dsimp only
    refine lookupRes_setRes_ne _ _ _ _ ?_
    intro hcon
    apply hne
    injection hcon with h1e h2e h3e h4e h5e
    rw [h2e, h3e]

/-- Claim C4 witness: concrete instantiation at the 100x50 and 200x100
requests of the counterexample. -/
theorem c4_cache_reuse_witness :
    (Closure.getOrCreateTexture "bgra8unorm" "sourceTexture" 100 50 false 22
        ((Closure.getOrCreateTexture "bgra8unorm" "sourceTexture" 100 50 false 22 initSt).2) =
      ((Closure.getOrCreateTexture "bgra8unorm" "sourceTexture" 100 50 false 22 initSt).1,
       (Closure.getOrCreateTexture "bgra8unorm" "sourceTexture" 100 50 false 22 initSt).2)) ∧
    (Closure.getOrCreateTexture "bgra8unorm" "sourceTexture" 200 100 false 22 initSt).1.id =
      initSt.nextId ∧
    ((Closure.getOrCreateTexture "bgra8unorm" "sourceTexture" 200 100 false 22
        initSt).2).destroyed = initSt.destroyed ∧
    lookupRes ((Closure.getOrCreateTexture "bgra8unorm" "sourceTexture" 200 100 false 22
        initSt).2).cache
        (RKey.texKey "sourceTexture" 100 50 (Closure.getTextureFormat "bgra8unorm" false) 22) =
      lookupRes initSt.cache
        (RKey.texKey "sourceTexture" 100 50 (Closure.getTextureFormat "bgra8unorm" false) 22) :=
  c4_cache_reuse_amended "bgra8unorm" "sourceTexture" 100 50 200 100 22 false initSt initSt
    (by decide) (by decide)

/-- Claim C5 counterexample: two class-renderer configurations identical
except for directOutput, both with a CPU segmenter, on a platform whose
preferred canvas format is bgra8unorm.  The downscale destination texture
created on the CPU path has format bgra8unorm when directOutput is true
and rgba8unorm when it is false: the downscale output encoding does
depend on the directOutput flag, refuting the claim that the choice does
not depend on it (and that the non-GPU case always uses an RGBA target). -/
theorem c5_format_counterexample :
    cfgCpuDirect.seg = cfgCpu.seg ∧
    cfgCpuDirect.preferredFormat = cfgCpu.preferredFormat ∧
    cfgCpuDirect.zeroCopy = cfgCpu.zeroCopy ∧
    cfgCpuDirect.directOutput = true ∧
    cfgCpu.directOutput = false ∧
    lookupRes ((ClassImpl.segment cfgCpuDirect 0 initSt).2.1).cache
        (RKey.texKey "downscaledTexture" 256 144 "bgra8unorm" 25) =
      some (Res.tex ⟨0, 256, 144, "bgra8unorm", 25⟩) ∧
    lookupRes ((ClassImpl.segment cfgCpu 0 initSt).2.1).cache
        (RKey.texKey "downscaledTexture" 256 144 "rgba8unorm" 25) =
      some (Res.tex ⟨0, 256, 144, "rgba8unorm", 25⟩) ∧
    ("bgra8unorm" : String) ≠ "rgba8unorm" := by
  decide

/-- Claim C5 amended: the downscale shader variant is selected by the
segmenter capability flags exactly as claimed - the 16-bit half-float
3-channel conversion shader is chosen precisely when the segmenter
declares GPU-buffer consumption with GPU affinity, independently of
directOutput - but the format of the downscale destination (the
renderer's format field, substituted into the shader and used to create
the destination texture) does depend on directOutput: it is the preferred
canvas format when directOutput is true and rgba8unorm otherwise. -/
theorem c5_format_amended (pf : String) (seg : ClassImpl.Segmenter) (zc b1 b2 : Bool)
    (sid : Nat) :
    ClassImpl.Config.packShaderUrl ⟨pf, zc, b1, seg, sid⟩ =
      ClassImpl.Config.packShaderUrl ⟨pf, zc, b2, seg, sid⟩ ∧
    (ClassImpl.Config.packShaderUrl ⟨pf, zc, b1, seg, sid⟩ =
        "blur4/shaders/downscale-and-convert-to-rgb16float.wgsl" ↔
      seg.segmentGPUBuffer = true ∧ seg.deviceType = "gpu") ∧
    ClassImpl.Config.format ⟨pf, zc, true, seg, sid⟩ = pf ∧
    ClassImpl.Config.format ⟨pf, zc, false, seg, sid⟩ = "rgba8unorm" ∧
    Closure.getTextureFormat pf true = pf ∧
    Closure.getTextureFormat pf false = "rgba8unorm" := by
  by_cases h : (seg.segmentGPUBuffer && (seg.deviceType == "gpu")) = true
  · rw [Bool.and_eq_true, beq_iff_eq] at h
    simp [ClassImpl.Config.packShaderUrl, ClassImpl.Config.format, Closure.getTextureFormat,
      h.1, h.2]
  · simp [ClassImpl.Config.packShaderUrl, ClassImpl.Config.format, Closure.getTextureFormat,
      h, Bool.and_eq_true, beq_iff_eq]
    intro hcon
    simp [hcon] at h
    exact h

/-- Claim C6: when directOutput is true no compositing render pass (and
hence no compositing draw call) is recorded for the frame; when it is
false exactly one compositing render pass is recorded, with a single
color attachment bound to the surface texture acquired this frame,
clearing to opaque black with load clear and store store, containing
exactly one draw call of six vertices, one instance and no index
buffer. -/
theorem c6_composite_draw_calls (c : ClassImpl.Config) (f : VideoFrame) (s : St) :
    (c.directOutput = true →
      ((ClassImpl.render c f s).2.2).filterMap Event.toPass = []) ∧
    (c.directOutput = false → ∃ cid,
      Event.getCurrentTexture cid ∈ (ClassImpl.render c f s).2.2 ∧
      ((ClassImpl.render c f s).2.2).filterMap Event.toPass =
        [([⟨cid, 0, 0, 0, 1, "clear", "store"⟩], [⟨6, 1, false⟩])]) := by
  obtain ⟨eSeg, cid, encId, srcId, maskId, dstId, htr, hb, hs, hp, hdt, hdf⟩ :=
    ClassImpl.render_events c f s
  constructor
  · intro h
    rw [htr]
    simp [List.filterMap_append, hp, Event.toPass, h]
  · intro h
    refine ⟨cid, ?_, ?_⟩
    · rw [htr]
      simp
    · rw [htr]
      simp [List.filterMap_append, hp, Event.toPass, h]

/-- Claim C6 witness: concrete composited-mode frame showing the single
six-vertex one-instance clear-to-black pass. -/
theorem c6_composite_draw_calls_witness :
    ∃ cid, Event.getCurrentTexture cid ∈ (ClassImpl.render cfgCpu frameA initSt).2.2 ∧
      ((ClassImpl.render cfgCpu frameA initSt).2.2).filterMap Event.toPass =
        [([⟨cid, 0, 0, 0, 1, "clear", "store"⟩], [⟨6, 1, false⟩])] :=
  (c6_composite_draw_calls cfgCpu frameA initSt).2 rfl

/-- Claim C7: whenever the closure-based render call succeeds with an
output frame, that frame carries exactly the timestamp and duration of
the incoming frame. -/
theorem c7_timestamp_duration (p : Closure.Params) (f : VideoFrame) (fail : Bool) (s : St)
    (out : OutFrame) (h : (Closure.render p f fail s).1 = some out) :
    out.timestamp = f.timestamp ∧ out.duration = f.duration := by
  have hok : (Closure.renderWithWebGPU p f fail s).1 = Except.ok out := by
    rcases hres : (Closure.renderWithWebGPU p f fail s).1 with e | o
    · unfold Closure.render at h
      rw [hres] at h
      simp at h
    · unfold Closure.render at h
      rw [hres] at h
      simp at h
      rw [h]
  obtain ⟨h1, h2, _, _⟩ := Closure.renderWithWebGPU_ok_inv p f fail s out hok
  exact ⟨h1, h2⟩

/-- Claim C7 witness: concrete successful frame whose output carries the
input timestamp 5 and duration 16. -/
theorem c7_timestamp_duration_witness :
    (⟨1280, 720, 5, some 16⟩ : OutFrame).timestamp =
      (⟨1280, 720, 5, some 16⟩ : VideoFrame).timestamp ∧
    (⟨1280, 720, 5, some 16⟩ : OutFrame).duration =
      (⟨1280, 720, 5, some 16⟩ : VideoFrame).duration :=
  c7_timestamp_duration paramsCpu ⟨1280, 720, 5, some 16⟩ false initSt
    ⟨1280, 720, 5, some 16⟩ (by decide)

/-- Claim C8: on every class-renderer frame the blur engine is first
informed of the processing resolution derived from the incoming frame's
display dimensions (falling back to 1280x720 when unreported) and then,
immediately after, invoked exactly once with the command encoder, source
texture, mask texture, destination texture and kernel parameter 360; the
destination is the surface texture freshly acquired this frame when
directOutput is true, and the cached intermediate output texture (cached
at the processing resolution under the output-texture key) when
directOutput is false. -/
theorem c8_blur_orchestration (c : ClassImpl.Config) (f : VideoFrame) (s : St) :
    ∃ pre post encId srcId maskId dstId,
      (ClassImpl.render c f s).2.2 =
        pre ++ [Event.setInputDimensions (procWidth f) (procHeight f),
                Event.blur encId srcId maskId dstId 360] ++ post ∧
      ((ClassImpl.render c f s).2.2).countP Event.isBlur = 1 ∧
      ((ClassImpl.render c f s).2.2).countP Event.isSetInputDimensions = 1 ∧
      (c.directOutput = true →
        Event.getCurrentTexture dstId ∈ (ClassImpl.render c f s).2.2) ∧
      (c.directOutput = false → ∃ t : Texture,
        lookupRes ((ClassImpl.render c f s).2.1).cache
          (RKey.texKey "outputTexture" (procWidth f) (procHeight f) c.format
            (STORAGE_BINDING ||| COPY_SRC ||| TEXTURE_BINDING)) = some (Res.tex t) ∧
        dstId = t.id) := by
  obtain ⟨eSeg, cid, encId, srcId, maskId, dstId, htr, hb, hs, hp, hdt, hdf⟩ :=
    ClassImpl.render_events c f s
  refine ⟨eSeg ++ [Event.getCurrentTexture cid],
    (if c.directOutput then ([] : List Event) else
      [Event.renderPass [⟨cid, 0, 0, 0, 1, "clear", "store"⟩] [⟨6, 1, false⟩]]) ++
      [Event.submit],
    encId, srcId, maskId, dstId, ?_, ?_, ?_, ?_, hdf⟩
  · rw [htr]
    simp [List.append_assoc]
  · rw [htr]
    by_cases h : c.directOutput <;>
      simp [h, List.countP_append, List.countP_cons, Event.isBlur, hb]
  · rw [htr]
    by_cases h : c.directOutput <;>
      simp [h, List.countP_append, List.countP_cons, Event.isSetInputDimensions, hs]
  · intro h
    rw [hdt h, htr]
    simp

/-- Claim C8 witness: the orchestration property instantiated at a
concrete direct-output frame. -/
theorem c8_blur_orchestration_witness :
    ∃ pre post encId srcId maskId dstId,
      (ClassImpl.render cfgCpuDirect frameA initSt).2.2 =
        pre ++ [Event.setInputDimensions (procWidth frameA) (procHeight frameA),
                Event.blur encId srcId maskId dstId 360] ++ post ∧
      ((ClassImpl.render cfgCpuDirect frameA initSt).2.2).countP Event.isBlur = 1 ∧
      ((ClassImpl.render cfgCpuDirect frameA initSt).2.2).countP
        Event.isSetInputDimensions = 1 ∧
      (cfgCpuDirect.directOutput = true →
        Event.getCurrentTexture dstId ∈ (ClassImpl.render cfgCpuDirect frameA initSt).2.2) ∧
      (cfgCpuDirect.directOutput = false → ∃ t : Texture,
        lookupRes ((ClassImpl.render cfgCpuDirect frameA initSt).2.1).cache
          (RKey.texKey "outputTexture" (procWidth frameA) (procHeight frameA)
            cfgCpuDirect.format
            (STORAGE_BINDING ||| COPY_SRC ||| TEXTURE_BINDING)) = some (Res.tex t) ∧
        dstId = t.id) :=
  c8_blur_orchestration cfgCpuDirect frameA initSt

/-- Claim C9: the downscale compute pass of every frame dispatches
exactly one grid of ceil(segmentationWidth/8) by ceil(segmentationHeight/8)
workgroups (8x8 threads each, so the grid covers the full output), and
the downscale shader early-returns, storing nothing, for every invocation
whose global coordinates reach or exceed the output dimensions, so every
texture store it performs is strictly inside the output bounds. -/
theorem c9_downscale_dispatch_safety (p : Closure.Params) (f : VideoFrame) (fail : Bool)
    (s : St) :
    ((Closure.renderWithWebGPU p f fail s).2.2).filterMap Event.toDispatch =
      [((p.segmentationWidth + 7) / 8, (p.segmentationHeight + 7) / 8)] ∧
    p.segmentationWidth ≤ 8 * ((p.segmentationWidth + 7) / 8) ∧
    p.segmentationHeight ≤ 8 * ((p.segmentationHeight + 7) / 8) ∧
    (∀ gx gy : Nat, p.segmentationWidth ≤ gx ∨ p.segmentationHeight ≤ gy →
      Closure.downscaleShaderMain gx gy p.segmentationWidth p.segmentationHeight = none) ∧
    (∀ gx gy : Nat, ∀ xy ∈ Closure.downscaleShaderMain gx gy p.segmentationWidth
        p.segmentationHeight, xy.1 < p.segmentationWidth ∧ xy.2 < p.segmentationHeight) := by
  refine ⟨Closure.renderWithWebGPU_dispatches p f fail s, by omega, by omega, ?_, ?_⟩
  · intro gx gy hge
    unfold Closure.downscaleShaderMain
    rw [if_pos hge]
  · intro gx gy xy hxy
    unfold Closure.downscaleShaderMain at hxy
    by_cases hb : p.segmentationWidth ≤ gx ∨ p.segmentationHeight ≤ gy
    · rw [if_pos hb] at hxy
      cases hxy
    · rw [if_neg hb] at hxy
      push_neg at hb
      simp at hxy
      rw [← hxy]
      exact ⟨hb.1, hb.2⟩

/-- Claim C9 witness: the dispatch grid at the fixed 256x144 segmentation
resolution is 32 by 18, and an out-of-range invocation stores nothing. -/
theorem c9_downscale_dispatch_witness :
    ((Closure.renderWithWebGPU paramsCpu frameA false initSt).2.2).filterMap
      Event.toDispatch = [(32, 18)] ∧
    Closure.downscaleShaderMain 300 0 256 144 = none := by
  have h := c9_downscale_dispatch_safety paramsCpu frameA false initSt
  refine ⟨?_, h.2.2.2.1 300 0 (Or.inl (by decide))⟩
  have h1 := h.1
  simpa using h1

/-- Claim C10: on the GPU-native path of the class implementation the
downscale bind group's storage binding (binding 2) is built from the
texture field of the downscaled-resource object, which is absent when the
destination is the segmenter's GPU input buffer; consequently that bind
group receives no resource at binding 2 (undefined) and the segmenter's
input buffer identifier appears in no bind-group entry at all. -/
theorem c10_gpu_path_bind_group (c : ClassImpl.Config) (srcId : Nat) (s : St)
    (h1 : c.seg.segmentGPUBuffer = true) (h2 : c.seg.deviceType = "gpu")
    (hsrc : srcId < s.nextId) (hsamp : c.samplerId < s.nextId) :
    ((ClassImpl.segment c srcId s).2.2).filterMap Event.toBindGroup =
      [[(0, some srcId), (1, some c.samplerId), (2, none)]] ∧
    Event.getInputBuffer s.nextId ∈ (ClassImpl.segment c srcId s).2.2 ∧
    ∀ entries ∈ ((ClassImpl.segment c srcId s).2.2).filterMap Event.toBindGroup,
      ∀ e ∈ entries, e.2 ≠ some s.nextId := by
  have h : (c.seg.segmentGPUBuffer && (c.seg.deviceType == "gpu")) = true := by
    simp [h1, h2]
  refine ⟨?_, ?_, ?_⟩ <;>
    simp [ClassImpl.segment, h, List.filterMap_append, Event.toBindGroup,
      ClassImpl.DownRes.textureField]
  rintro a b (⟨rfl, rfl⟩ | ⟨rfl, rfl⟩ | ⟨rfl, rfl⟩) <;> simp <;> omega

/-- Claim C10 witness: concrete GPU-native segmentation call whose bind
group carries no resource at binding 2 and never references the input
buffer (identifier 5). -/
theorem c10_gpu_path_bind_group_witness :
    ((ClassImpl.segment ⟨"bgra8unorm", false, false, segGpu, 3⟩ 1
        ⟨5, [], [], none, 1280, 720⟩).2.2).filterMap Event.toBindGroup =
      [[(0, some 1), (1, some 3), (2, none)]] ∧
    Event.getInputBuffer 5 ∈ (ClassImpl.segment ⟨"bgra8unorm", false, false, segGpu, 3⟩ 1
        ⟨5, [], [], none, 1280, 720⟩).2.2 ∧
    ∀ entries ∈ ((ClassImpl.segment ⟨"bgra8unorm", false, false, segGpu, 3⟩ 1
        ⟨5, [], [], none, 1280, 720⟩).2.2).filterMap Event.toBindGroup,
      ∀ e ∈ entries, e.2 ≠ some 5 :=
  c10_gpu_path_bind_group ⟨"bgra8unorm", false, false, segGpu, 3⟩ 1
    ⟨5, [], [], none, 1280, 720⟩ rfl rfl (by decide) (by decide)
